import Mathlib

/-!
Verification development for the Strava run-coach activity layer.

The definitions below are a shallow embedding of the Python source files
`strava.py`, `storage.py` and `server.py`: Python floats are modelled as
exact rationals, Python ints as `Int`, optional/absent dict entries as
`Option`, the JSON cache file as an explicit `Option ActivitiesCache`
state value, and functions that can raise as `Option`-returning functions.
-/

namespace RunCoach

/-! Decimal rendering helpers, modelling Python str()/f-string formatting. -/

/-- Character for a single decimal digit. -/
def digitChar (n : Nat) : Char := Char.ofNat (48 + n)

/-- Digit list of a natural number, with structural fuel (fuel ≥ 1 + number of digits). -/
def natStrAux : Nat → Nat → List Char
  | 0, _ => []
  | fuel + 1, n =>
    if n < 10 then [digitChar n]
    else natStrAux fuel (n / 10) ++ [digitChar (n % 10)]

/-- Python str(n) for a natural number. -/
def natStr (n : Nat) : String := String.mk (natStrAux (n + 1) n)

/-- Python str(i) for an integer. -/
def intStr (i : Int) : String := if i < 0 then "-" ++ natStr i.natAbs else natStr i.natAbs

/-- Python f-string 02d formatting: zero-pad to two digits. -/
def pad2 (n : Nat) : String := if n < 10 then "0" ++ natStr n else natStr n

/-- Round a rational to the nearest integer, ties to even (Python round / format rounding). -/
def roundHalfEvenInt (q : ℚ) : Int :=
  let f := ⌊q⌋
  let r := q - (f : ℚ)
  if r < 1/2 then f else if 1/2 < r then f + 1 else if 2 ∣ f then f else f + 1

/-- Python f-string .2f formatting of a (modelled-as-rational) float. -/
def format2f (q : ℚ) : String :=
  let n := (roundHalfEvenInt (|q| * 100)).toNat
  (if q < 0 then "-" else "") ++ natStr (n / 100) ++ "." ++ pad2 (n % 100)

/-- Python f-string .0f formatting of a (modelled-as-rational) float. -/
def format0f (q : ℚ) : String :=
  (if q < 0 then "-" else "") ++ natStr (roundHalfEvenInt |q|).toNat

/-- Python round(q, 1): round to one decimal, ties to even. -/
def round1 (q : ℚ) : ℚ := (roundHalfEvenInt (q * 10) : ℚ) / 10

/-! Presentation formatters, from strava.py. -/

/-- strava.py format_pace: convert m/s to a min/km pace string; "N/A" for speed ≤ 0. -/
def format_pace (meters_per_second : ℚ) : String :=
  if meters_per_second ≤ 0 then "N/A"
  else
    let seconds_per_km : ℚ := 1000 / meters_per_second
    let minutes : Int := ⌊seconds_per_km / 60⌋
    let seconds : Int := ⌊seconds_per_km - 60 * (minutes : ℚ)⌋
    intStr minutes ++ ":" ++ pad2 seconds.toNat ++ "/km"

/-- strava.py format_distance: meters to a km string with two decimals. -/
def format_distance (meters : ℚ) : String := format2f (meters / 1000) ++ " km"

/-- strava.py format_duration: seconds to H:MM:SS, or M:SS when hours is zero.
Python // and % are floor division and nonnegative remainder, i.e. ediv/emod. -/
def format_duration (seconds : Int) : String :=
  let hours := Int.ediv seconds 3600
  let minutes := Int.ediv (Int.emod seconds 3600) 60
  let secs := Int.emod seconds 60
  if 0 < hours then intStr hours ++ ":" ++ pad2 minutes.toNat ++ ":" ++ pad2 secs.toNat
  else intStr minutes ++ ":" ++ pad2 secs.toNat

/-! Data model: an Activity is a JSON object from the remote API.  Every field the
core reads through dict.get is modelled as an `Option`; `none` is a missing key. -/

/-- Activity record, with exactly the fields the embedded code reads. -/
structure Activity where
  id : Option Int := none
  name : Option String := none
  type : Option String := none
  start_date_local : Option String := none
  distance : Option ℚ := none
  moving_time : Option Int := none
  elapsed_time : Option Int := none
  total_elevation_gain : Option ℚ := none
  average_speed : Option ℚ := none
  average_heartrate : Option ℚ := none
  max_heartrate : Option ℚ := none
  suffer_score : Option ℚ := none
  calories : Option ℚ := none
deriving Repr, DecidableEq

/-- Output shape of format_activity_summary with compact=True. -/
structure CompactSummary where
  id : Option Int
  date : String
  name : Option String
  distance : String
  time : String
  pace : Option String
  hr : Option ℚ
deriving Repr, DecidableEq

/-- Output shape of format_activity_summary with compact=False. -/
structure FullSummary where
  id : Option Int
  name : Option String
  type : Option String
  date : String
  distance : String
  distance_meters : ℚ
  moving_time : String
  moving_time_seconds : Int
  elapsed_time : String
  elapsed_time_seconds : Int
  pace : Option String
  average_speed_mps : ℚ
  elevation_gain : String
  average_heartrate : Option ℚ
  max_heartrate : Option ℚ
  suffer_score : Option ℚ
  calories : Option ℚ
deriving Repr, DecidableEq

/-- strava.py format_activity_summary, compact=True branch.  The Python `pace`
value is `format_pace(...)` when the type tag is "Run" and the distinct null
marker None otherwise; None is modelled as `Option.none`. -/
def format_activity_summary_compact (activity : Activity) : CompactSummary :=
  let avg_speed := activity.average_speed.getD 0
  let distance := activity.distance.getD 0
  let moving_time := activity.moving_time.getD 0
  let elapsed_time := activity.elapsed_time.getD moving_time
  { id := activity.id
    date := (activity.start_date_local.getD "").take 10
    name := activity.name
    distance := format_distance distance
    time := format_duration elapsed_time
    pace := if activity.type = some "Run" then some (format_pace avg_speed) else none
    hr := activity.average_heartrate }

/-- strava.py format_activity_summary, compact=False branch. -/
def format_activity_summary_full (activity : Activity) : FullSummary :=
  let avg_speed := activity.average_speed.getD 0
  let distance := activity.distance.getD 0
  let moving_time := activity.moving_time.getD 0
  let elapsed_time := activity.elapsed_time.getD moving_time
  { id := activity.id
    name := activity.name
    type := activity.type
    date := (activity.start_date_local.getD "").take 10
    distance := format_distance distance
    distance_meters := distance
    moving_time := format_duration moving_time
    moving_time_seconds := moving_time
    elapsed_time := format_duration elapsed_time
    elapsed_time_seconds := elapsed_time
    pace := if activity.type = some "Run" then some (format_pace avg_speed) else none
    average_speed_mps := avg_speed
    elevation_gain := format0f (activity.total_elevation_gain.getD 0) ++ "m"
    average_heartrate := activity.average_heartrate
    max_heartrate := activity.max_heartrate
    suffer_score := activity.suffer_score
    calories := activity.calories }

/-! Activity cache store, from storage.py.  The JSON cache file is modelled as an
explicit state value of type `Option ActivitiesCache`; `none` models the Python
falsy cases of get_activities_cache (file absent, or an empty JSON value). -/

/-- The persisted activity cache document. -/
structure ActivitiesCache where
  updated_at : String
  count : Int
  activities : List Activity
deriving Repr, DecidableEq

/-- storage.py save_activities_cache: full overwrite of the cache file with a
fresh document; the previous file contents are ignored.  `now` stands for
datetime.now().isoformat(). -/
def save_activities_cache (now : String) (activities : List Activity)
    (_prev : Option ActivitiesCache) : Option ActivitiesCache :=
  some { updated_at := now, count := (activities.length : Int), activities := activities }

/-- storage.py get_activities_cache: read the cache file state. -/
def get_activities_cache (st : Option ActivitiesCache) : Option ActivitiesCache := st

/-- Python list slicing l[:n]: for n ≥ 0 the first n elements, for n < 0 all but
the last |n| elements (empty when |n| ≥ length). -/
def slice_to {α : Type} (l : List α) (n : Int) : List α :=
  if 0 ≤ n then l.take n.toNat else l.take ((l.length : Int) + n).toNat

/-- storage.py query_cached_activities.  Each `if arg:` guard in the Python is a
truthiness test: a filter is skipped when its argument is None, and also when it
is the empty string (activity_type) or zero (year, limit).  min/max distance use
`is not None` and so apply even at 0. -/
def query_cached_activities (st : Option ActivitiesCache)
    (activity_type : Option String) (year : Option Int)
    (min_distance_km : Option ℚ) (max_distance_km : Option ℚ)
    (limit : Option Int) : List Activity :=
  match get_activities_cache st with
  | none => []
  | some cache =>
    let acts := cache.activities
    let acts := match activity_type with
      | some t => if t = "" then acts else acts.filter (fun a => decide (a.type = some t))
      | none => acts
    let acts := match year with
      | some y => if y = 0 then acts
          else acts.filter (fun a => (a.start_date_local.getD "").startsWith (intStr y))
      | none => acts
    let acts := match min_distance_km with
      | some mk => acts.filter (fun a => decide (a.distance.getD 0 ≥ mk * 1000))
      | none => acts
    let acts := match max_distance_km with
      | some mk => acts.filter (fun a => decide (a.distance.getD 0 ≤ mk * 1000))
      | none => acts
    match limit with
      | some l => if l = 0 then acts else slice_to acts l
      | none => acts

/-! Caller-facing search tool, from server.py _search_activities. -/

/-- Arguments dict of the search_activities tool; `none` is an absent key. -/
structure SearchArgs where
  activity_type : Option String := none
  year : Option Int := none
  min_distance_km : Option ℚ := none
  max_distance_km : Option ℚ := none
  limit : Option Int := none
deriving Repr, DecidableEq

/-- Result dict of _search_activities: either the no-cache error document or the
normal result document. -/
inductive SearchResult where
  | noData (error : String) (activities : List CompactSummary)
  | ok (cache_updated : String) (total_cached : Int) (results_count : Nat)
      (activities : List CompactSummary)
deriving Repr, DecidableEq

/-- Activities list carried by either shape of search result. -/
def SearchResult.activitiesList : SearchResult → List CompactSummary
  | .noData _ acts => acts
  | .ok _ _ _ acts => acts

/-- server.py _search_activities: returns the error document when the cache is
absent; otherwise clamps limit with min(arguments.get("limit", 10), 25) and
queries the cache, formatting each hit compactly. -/
def search_activities (st : Option ActivitiesCache) (args : SearchArgs) : SearchResult :=
  match get_activities_cache st with
  | none => .noData "No cached activities. Run sync_all_activities first." []
  | some cache =>
    let limit : Int := min (args.limit.getD 10) 25
    let acts := query_cached_activities st args.activity_type args.year
      args.min_distance_km args.max_distance_km (some limit)
    .ok cache.updated_at cache.count acts.length
      (acts.map format_activity_summary_compact)

/-! Specification-side views of the query engine, used to compare the source
behaviour with the claims about it. -/

/-- Spec-side type filter step: skipped for None and for the falsy empty string. -/
def filterByType (t : Option String) (l : List Activity) : List Activity :=
  match t with
  | some s => if s = "" then l else l.filter (fun a => decide (a.type = some s))
  | none => l

/-- Spec-side year filter step: skipped for None and for the falsy year 0. -/
def filterByYear (y : Option Int) (l : List Activity) : List Activity :=
  match y with
  | some n => if n = 0 then l
      else l.filter (fun a => (a.start_date_local.getD "").startsWith (intStr n))
  | none => l

/-- Spec-side minimum-distance step: applied whenever supplied (is-not-None). -/
def filterByMin (mn : Option ℚ) (l : List Activity) : List Activity :=
  match mn with
  | some mk => l.filter (fun a => decide (a.distance.getD 0 ≥ mk * 1000))
  | none => l

/-- Spec-side maximum-distance step: applied whenever supplied (is-not-None). -/
def filterByMax (mx : Option ℚ) (l : List Activity) : List Activity :=
  match mx with
  | some mk => l.filter (fun a => decide (a.distance.getD 0 ≤ mk * 1000))
  | none => l

/-- Spec-side truncation step: skipped for None and for the falsy limit 0. -/
def truncateByLimit (lim : Option Int) (l : List Activity) : List Activity :=
  match lim with
  | some n => if n = 0 then l else slice_to l n
  | none => l

/-- The five filter steps of the query engine as a pipeline, with the truthiness
guards of the source. -/
def query_pipeline (st : Option ActivitiesCache) (ty : Option String) (y : Option Int)
    (mn mx : Option ℚ) (lim : Option Int) : List Activity :=
  match st with
  | none => []
  | some cache =>
    truncateByLimit lim (filterByMax mx (filterByMin mn (filterByYear y
      (filterByType ty cache.activities))))

/-- Modelled from the spec claim taken literally: every filter (and the
truncation) is applied whenever its argument is supplied, the empty string and
zero included.  This is the comparison point showing where the source's
truthiness guards deviate from the claim. -/
def query_supplied_spec (st : Option ActivitiesCache) (ty : Option String) (y : Option Int)
    (mn mx : Option ℚ) (lim : Option Int) : List Activity :=
  match st with
  | none => []
  | some cache =>
    let acts := cache.activities
    let acts := match ty with
      | some t => acts.filter (fun a => decide (a.type = some t))
      | none => acts
    let acts := match y with
      | some n => acts.filter (fun a => (a.start_date_local.getD "").startsWith (intStr n))
      | none => acts
    let acts := filterByMax mx (filterByMin mn acts)
    match lim with
      | some l => acts.take l.toNat
      | none => acts

/-! Yearly statistics, from server.py _get_yearly_stats.  Python dicts keyed by
strings are modelled as association lists in insertion order. -/

/-- First-match lookup in an association list (Python dict indexing / .get). -/
def lookupAssoc {β : Type} : List (String × β) → String → Option β
  | [], _ => none
  | (k, v) :: rest, key => if k = key then some v else lookupAssoc rest key

/-- Update the entry at a key (Python dict item assignment after the
key-not-present initialisation), appending `upd dflt` when the key is new. -/
def updateAssoc {β : Type} (upd : β → β) (dflt : β) :
    List (String × β) → String → List (String × β)
  | [], key => [(key, upd dflt)]
  | (k, v) :: rest, key =>
    if k = key then (k, upd v) :: rest else (k, v) :: updateAssoc upd dflt rest key

/-- Insert one keyed entry into a key-sorted association list. -/
def insertByKey {β : Type} (p : String × β) : List (String × β) → List (String × β)
  | [] => [p]
  | q :: rest => if p.1 < q.1 then p :: q :: rest else q :: insertByKey p rest

/-- Python sorted(d.items()): ascending by the (unique) string keys. -/
def sortByKey {β : Type} : List (String × β) → List (String × β)
  | [] => []
  | p :: rest => insertByKey p (sortByKey rest)

/-- Per-year accumulator dict built by the grouping loop of _get_yearly_stats. -/
structure RawYearStats where
  runs : Nat
  distance_m : ℚ
  time_s : Int
  elevation_m : ℚ
deriving Repr, DecidableEq

/-- The zero accumulator a fresh year bucket starts from. -/
def zeroYearStats : RawYearStats := ⟨0, 0, 0, 0⟩

/-- One loop iteration's += updates for a run. -/
def accYearStats (s : RawYearStats) (a : Activity) : RawYearStats :=
  ⟨s.runs + 1, s.distance_m + a.distance.getD 0, s.time_s + a.moving_time.getD 0,
   s.elevation_m + a.total_elevation_gain.getD 0⟩

/-- Year-bucket key of an activity: the first four characters of its local start
date string (empty when the field is missing or too short). -/
def yearKey (a : Activity) : String := (a.start_date_local.getD "").take 4

/-- The grouping loop of _get_yearly_stats over the run list, carrying the dict. -/
def groupRunsByYearAux (m : List (String × RawYearStats)) :
    List Activity → List (String × RawYearStats)
  | [] => m
  | run :: rest =>
    let y := yearKey run
    if y = "" then groupRunsByYearAux m rest
    else groupRunsByYearAux (updateAssoc (fun s => accYearStats s run) zeroYearStats m y) rest

/-- Formatted per-year summary emitted by _get_yearly_stats. -/
structure YearSummary where
  total_runs : Nat
  total_distance : String
  total_distance_km : ℚ
  total_time : String
  total_elevation : String
  average_run_distance : String
  average_pace : String
deriving Repr, DecidableEq

/-- Formatting of one nonempty year bucket. -/
def mkYearSummary (s : RawYearStats) : YearSummary :=
  let avg_pace : ℚ := if 0 < s.time_s then s.distance_m / (s.time_s : ℚ) else 0
  { total_runs := s.runs
    total_distance := format_distance s.distance_m
    total_distance_km := round1 (s.distance_m / 1000)
    total_time := format_duration s.time_s
    total_elevation := format0f s.elevation_m ++ "m"
    average_run_distance :=
      if 0 < s.runs then format_distance (s.distance_m / (s.runs : ℚ)) else "N/A"
    average_pace := if 0 < avg_pace then format_pace avg_pace else "N/A" }

/-- Result dict of _get_yearly_stats: the no-cache error document or the normal
document carrying the year-keyed summaries in ascending key order. -/
inductive YearlyStatsResult where
  | noData (error : String)
  | ok (cache_updated : String) (yearly_stats : List (String × YearSummary))
deriving Repr, DecidableEq

/-- server.py _get_yearly_stats.  After grouping, a requested truthy year
restricts the dict to that single key whose value is dict.get(key, the empty
dict); the empty dict is modelled as `Option.none` and is skipped by the
formatting loop (Python `if not stats: continue`). -/
def get_yearly_stats (st : Option ActivitiesCache) (year : Option Int) : YearlyStatsResult :=
  match get_activities_cache st with
  | none => .noData "No cached activities. Run sync_all_activities first."
  | some cache =>
    let runs := cache.activities.filter (fun a => decide (a.type = some "Run"))
    let yearly := groupRunsByYearAux [] runs
    let restricted : List (String × Option RawYearStats) :=
      match year with
      | some ty =>
        if ty = 0 then yearly.map (fun p => (p.1, some p.2))
        else [(intStr ty, lookupAssoc yearly (intStr ty))]
      | none => yearly.map (fun p => (p.1, some p.2))
    let result := (sortByKey restricted).filterMap
      (fun p => p.2.map (fun s => (p.1, mkYearSummary s)))
    .ok cache.updated_at result

/-! Civil-date arithmetic, modelling the datetime.date operations used by
server.py _get_training_load: ISO parsing, weekday (Monday = 0), and
subtracting a timedelta of days.  The conversions between a date triple and a
day count since 1970-01-01 follow the standard proleptic-Gregorian algorithms. -/

/-- Calendar date triple (proleptic Gregorian). -/
structure CivilDate where
  year : Int
  month : Int
  day : Int
deriving Repr, DecidableEq

/-- Days since 1970-01-01 of a civil date. -/
def daysFromCivil (d : CivilDate) : Int :=
  let y := if d.month ≤ 2 then d.year - 1 else d.year
  let era := Int.ediv y 400
  let yoe := y - era * 400
  let mp := if 2 < d.month then d.month - 3 else d.month + 9
  let doy := Int.ediv (153 * mp + 2) 5 + d.day - 1
  let doe := yoe * 365 + Int.ediv yoe 4 - Int.ediv yoe 100 + doy
  era * 146097 + doe - 719468

/-- Civil date of a count of days since 1970-01-01. -/
def civilFromDays (z : Int) : CivilDate :=
  let w := z + 719468
  let era := Int.ediv w 146097
  let doe := w - era * 146097
  let yoe := Int.ediv (doe - Int.ediv doe 1460 + Int.ediv doe 36524 - Int.ediv doe 146096) 365
  let y := yoe + era * 400
  let doy := doe - (365 * yoe + Int.ediv yoe 4 - Int.ediv yoe 100)
  let mp := Int.ediv (5 * doy + 2) 153
  let d := doy - Int.ediv (153 * mp + 2) 5 + 1
  let m := if mp < 10 then mp + 3 else mp - 9
  ⟨if m ≤ 2 then y + 1 else y, m, d⟩

/-- Python date.weekday() on the day count: Monday = 0 .. Sunday = 6
(1970-01-01 was a Thursday, weekday 3). -/
def weekdayOfDays (z : Int) : Int := Int.emod (z + 3) 7

/-- Day count of the Monday of the week of day count z: the source's
date - timedelta(days=date.weekday()). -/
def mondayOfDays (z : Int) : Int := z - weekdayOfDays z

/-- Zero-pad a natural number to four digits (strftime %Y for cached dates). -/
def pad4 (n : Nat) : String :=
  if n < 10 then "000" ++ natStr n
  else if n < 100 then "00" ++ natStr n
  else if n < 1000 then "0" ++ natStr n
  else natStr n

/-- strftime("%Y-%m-%d") of a civil date. -/
def formatCivil (d : CivilDate) : String :=
  pad4 d.year.toNat ++ "-" ++ pad2 d.month.toNat ++ "-" ++ pad2 d.day.toNat

/-- The hyphen character of ISO dates. -/
def hyphenChar : Char := Char.ofNat 45

/-- Numeric value of a decimal digit character. -/
def digitVal (c : Char) : Nat := c.toNat - 48

/-- Gregorian leap-year test. -/
def isLeap (y : Int) : Bool :=
  (Int.emod y 4 = 0 ∧ Int.emod y 100 ≠ 0) ∨ Int.emod y 400 = 0

/-- Length of a month in a given year. -/
def daysInMonth (y m : Int) : Int :=
  if m = 2 then (if isLeap y then 29 else 28)
  else if m = 4 ∨ m = 6 ∨ m = 9 ∨ m = 11 then 30 else 31

/-- Date part of datetime.fromisoformat on the start-date string: the leading
YYYY-MM-DD is parsed and validated against the calendar; `none` models the
ValueError raise.  The time-of-day suffix does not affect the date or its
weekday and is not modelled. -/
def parseDate (s : String) : Option CivilDate :=
  match s.toList.take 10 with
  | [y1, y2, y3, y4, s1, m1, m2, s2, d1, d2] =>
    if y1.isDigit ∧ y2.isDigit ∧ y3.isDigit ∧ y4.isDigit ∧ s1 = hyphenChar ∧
        m1.isDigit ∧ m2.isDigit ∧ s2 = hyphenChar ∧ d1.isDigit ∧ d2.isDigit then
      let y : Int := ((1000 * digitVal y1 + 100 * digitVal y2 + 10 * digitVal y3 +
        digitVal y4 : Nat) : Int)
      let m : Int := ((10 * digitVal m1 + digitVal m2 : Nat) : Int)
      let d : Int := ((10 * digitVal d1 + digitVal d2 : Nat) : Int)
      if 1 ≤ m ∧ m ≤ 12 ∧ 1 ≤ d ∧ d ≤ daysInMonth y m then some ⟨y, m, d⟩ else none
    else none
  | _ => none

/-- Week-bucket key of a civil date: the ISO date of the Monday of its week. -/
def weekKeyOfDate (d : CivilDate) : String :=
  formatCivil (civilFromDays (mondayOfDays (daysFromCivil d)))

/-! Weekly training-load grouping, from server.py _get_training_load.  Only the
bucketing stage reads activity contents; the surrounding fetch and the final
averaging are not needed by the claims about bucket keys. -/

/-- Week-bucket key of an activity: run["start_date_local"] is parsed (a KeyError
on a missing field or a ValueError on a malformed date is modelled as `none`)
and mapped to the Monday-of-week ISO date. -/
def week_key (a : Activity) : Option String :=
  match a.start_date_local with
  | none => none
  | some s => (parseDate s).map weekKeyOfDate

/-- Per-week accumulator dict entry built by the grouping loop. -/
structure WeekBucket where
  week_of : String
  runs : Nat
  distance_meters : ℚ
  time_seconds : Int
  elevation_meters : ℚ
deriving Repr, DecidableEq

/-- The fresh bucket a week starts from. -/
def zeroWeekBucket (k : String) : WeekBucket := ⟨k, 0, 0, 0, 0⟩

/-- One loop iteration's += updates for a run. -/
def accWeekBucket (b : WeekBucket) (a : Activity) : WeekBucket :=
  ⟨b.week_of, b.runs + 1, b.distance_meters + a.distance.getD 0,
   b.time_seconds + a.moving_time.getD 0, b.elevation_meters + a.total_elevation_gain.getD 0⟩

/-- The grouping loop of _get_training_load over a run list, carrying the dict;
`none` models an uncaught parse exception aborting the tool call. -/
def weeklyGroupAux (m : List (String × WeekBucket)) :
    List Activity → Option (List (String × WeekBucket))
  | [] => some m
  | run :: rest =>
    match week_key run with
    | none => none
    | some k =>
      weeklyGroupAux (updateAssoc (fun b => accWeekBucket b run) (zeroWeekBucket k) m k) rest

/-- Week buckets computed by _get_training_load from a fetched activity list:
filter to runs, then group by week key. -/
def training_load_weekly (activities : List Activity) : Option (List (String × WeekBucket)) :=
  weeklyGroupAux [] (activities.filter (fun a => decide (a.type = some "Run")))

/-! Remote pagination, from strava.py get_all_activities. -/

/-- strava.py get_all_activities.  The remote API is modelled by the finite list
of its pages in page-number order; every page past the end of the list is
empty.  The returned pair is the accumulated activity list and the number of
page requests the loop issues. -/
def get_all_activities_aux (per_page : Nat) : List (List Activity) → List Activity × Nat
  | [] => ([], 1)
  | p :: rest =>
    if p.length = 0 then ([], 1)
    else if p.length < per_page then (p, 1)
    else
      let r := get_all_activities_aux per_page rest
      (p ++ r.1, r.2 + 1)

/-- The pagination loop at the Strava page size of 200. -/
def get_all_activities (pages : List (List Activity)) : List Activity × Nat :=
  get_all_activities_aux 200 pages

/-! Concrete fixtures used by the claim theorems and their witnesses. -/

/-- A 3 km run. -/
def run3k : Activity :=
  { type := some "Run", start_date_local := some "2024-03-01T08:00:00Z", distance := some 3000 }

/-- A 7 km run. -/
def run7k : Activity :=
  { type := some "Run", start_date_local := some "2024-03-02T08:00:00Z", distance := some 7000 }

/-- A 12 km run. -/
def run12k : Activity :=
  { type := some "Run", start_date_local := some "2024-03-03T08:00:00Z", distance := some 12000 }

/-- Cache holding runs of 3 km, 7 km and 12 km. -/
def cacheKm : ActivitiesCache := ⟨"2024-06-01T00:00:00", 3, [run3k, run7k, run12k]⟩

/-- A 5 km run used by counterexample caches. -/
def runMay5 : Activity :=
  { type := some "Run", start_date_local := some "2024-05-05T08:00:00Z", distance := some 5000 }

/-- Single-run cache. -/
def cacheOne : ActivitiesCache := ⟨"2024-06-01T00:00:00", 1, [runMay5]⟩

/-- Cache holding 26 identical runs, more than the documented response cap. -/
def cache26 : ActivitiesCache := ⟨"2024-06-01T00:00:00", 26, List.replicate 26 runMay5⟩

/-- Cache holding one Ride and no Run. -/
def cacheRideOnly : ActivitiesCache :=
  ⟨"2024-06-01T00:00:00", 1,
   [{ type := some "Ride", start_date_local := some "2024-05-05T08:00:00Z",
      distance := some 5000 }]⟩

/-- Activity with every field absent (an empty JSON object). -/
def blankActivity : Activity := {}

/-- Run on Monday 2024-01-01. -/
def runJan1 : Activity := { type := some "Run", start_date_local := some "2024-01-01T08:00:00Z" }

/-- Run on Sunday 2024-01-07. -/
def runJan7 : Activity := { type := some "Run", start_date_local := some "2024-01-07T09:30:00Z" }

/-- Run on Monday 2024-01-08. -/
def runJan8 : Activity := { type := some "Run", start_date_local := some "2024-01-08T07:00:00Z" }

/-! Claim theorems. -/

/-- C3: after save_activities_cache(activities), get_activities_cache() returns a
cache whose count is the length of the saved list and whose activities equal the
saved list unchanged; the save fully overwrites any previous cache (the result
does not depend on the prior state), and save([a]) then load() gives count 1 and
activities [a]. -/
theorem claim3_cache_roundtrip :
    ∀ (now : String) (acts : List Activity) (prev : Option ActivitiesCache),
      get_activities_cache (save_activities_cache now acts prev) =
        some { updated_at := now, count := (acts.length : Int), activities := acts } ∧
      (∀ prev2, save_activities_cache now acts prev = save_activities_cache now acts prev2) ∧
      ∀ a : Activity, get_activities_cache (save_activities_cache now [a] prev) =
        some { updated_at := now, count := 1, activities := [a] } :=
  fun _ _ _ => ⟨rfl, fun _ => rfl, fun _ => rfl⟩

/-- C8: for an activity whose type tag is not "Run", both summary shapes carry
pace as the explicit absent marker `none`, which differs from `some s` for every
string s — in particular from "N/A" and from any rendering of 0. -/
theorem claim8_pace_null_marker :
    ∀ a : Activity, a.type ≠ some "Run" →
      (format_activity_summary_compact a).pace = none ∧
      (format_activity_summary_full a).pace = none ∧
      (∀ s : String, (format_activity_summary_compact a).pace ≠ some s) ∧
      (∀ s : String, (format_activity_summary_full a).pace ≠ some s) := by
  intro a h
  have hc : (format_activity_summary_compact a).pace = none := by
    simp only [format_activity_summary_compact]
    exact if_neg h
  have hf : (format_activity_summary_full a).pace = none := by
    simp only [format_activity_summary_full]
    exact if_neg h
  refine ⟨hc, hf, ?_, ?_⟩
  · intro s; rw [hc]; exact fun hcon => Option.noConfusion hcon
  · intro s; rw [hf]; exact fun hcon => Option.noConfusion hcon

/-- Witness for C8 at a concrete Ride activity. -/
theorem claim8_pace_null_marker_witness :
    (({ type := some "Ride" } : Activity).type ≠ some "Run") ∧
    (format_activity_summary_compact { type := some "Ride" }).pace = none :=
  ⟨by decide, (claim8_pace_null_marker { type := some "Ride" } (by decide)).1⟩

/-- C9: format_pace returns "N/A" for every input ≤ 0 and "5:00/km" at speed
3.333 m/s; format_duration(3661) is "1:01:01" and format_duration(125) is
"2:05"; format_distance(5000) is "5.00 km". -/
theorem claim9_formatter_vectors :
    (∀ q : ℚ, q ≤ 0 → format_pace q = "N/A") ∧
    format_pace (3333/1000) = "5:00/km" ∧
    format_duration 3661 = "1:01:01" ∧
    format_duration 125 = "2:05" ∧
    format_distance 5000 = "5.00 km" := by
  refine ⟨?_, by with_unfolding_all rfl, by decide, by decide, by with_unfolding_all rfl⟩
  intro q hq
  unfold format_pace
  exact if_pos hq

/-- Witness for C9 at the concrete nonpositive speed 0. -/
theorem claim9_formatter_vectors_witness :
    ((0 : ℚ) ≤ 0) ∧ format_pace 0 = "N/A" :=
  ⟨le_refl 0, claim9_formatter_vectors.1 0 (le_refl 0)⟩

/-! Pagination lemmas for C1. -/

/-- The pagination loop always issues at least one request. -/
lemma gaa_requests_pos (pp : Nat) (pages : List (List Activity)) :
    1 ≤ (get_all_activities_aux pp pages).2 := by
  induction pages with
  | nil => simp [get_all_activities_aux]
  | cons p rest ih =>
    simp only [get_all_activities_aux]
    by_cases h0 : p.length = 0
    · simp [h0]
    · by_cases h1 : p.length < pp
      · simp [h0, h1]
      · simp [h0, h1]

/-- The accumulated result is the concatenation, in order, of exactly the pages
that were requested. -/
lemma gaa_join (pp : Nat) (pages : List (List Activity)) :
    (get_all_activities_aux pp pages).1 =
      (pages.take (get_all_activities_aux pp pages).2).flatten := by
  induction pages with
  | nil => simp [get_all_activities_aux]
  | cons p rest ih =>
    simp only [get_all_activities_aux]
    by_cases h0 : p.length = 0
    · have hp : p = [] := List.length_eq_zero.mp h0
      simp [h0, hp]
    · by_cases h1 : p.length < pp
      · simp [h0, h1]
      · simp only [h0, h1, if_neg, if_false]
        simp [List.take_cons, ih]

/-- Every page requested before the final one was a full page. -/
lemma gaa_full_before_last (pp : Nat) (pages : List (List Activity)) :
    ∀ i : Nat, i + 1 < (get_all_activities_aux pp pages).2 →
      pp ≤ (pages.getD i []).length := by
  induction pages with
  | nil => intro i hi; simp [get_all_activities_aux] at hi
  | cons p rest ih =>
    intro i hi
    simp only [get_all_activities_aux] at hi
    by_cases h0 : p.length = 0
    · simp [h0] at hi
    · by_cases h1 : p.length < pp
      · simp [h0, h1] at hi
      · simp only [h0, h1, if_false] at hi
        cases i with
        | zero => simpa [List.getD] using Nat.le_of_not_lt h1
        | succ j =>
          have := ih j (by omega)
          simpa [List.getD] using this

/-- The final requested page is empty or shorter than the page size (a page past
the end of the supplied page list is empty). -/
lemma gaa_last_short (pp : Nat) (pages : List (List Activity)) :
    (pages.getD ((get_all_activities_aux pp pages).2 - 1) []) = [] ∨
      (pages.getD ((get_all_activities_aux pp pages).2 - 1) []).length < pp := by
  induction pages with
  | nil => left; simp [get_all_activities_aux]
  | cons p rest ih =>
    simp only [get_all_activities_aux]
    by_cases h0 : p.length = 0
    · left
      simp [h0, List.length_eq_zero.mp h0]
    · by_cases h1 : p.length < pp
      · right
        simp [h0, h1]
      · simp only [h0, h1, if_false]
        have hpos := gaa_requests_pos pp rest
        have hidx : (get_all_activities_aux pp rest).2 + 1 - 1 =
            ((get_all_activities_aux pp rest).2 - 1) + 1 := by omega
        rw [hidx]
        simpa [List.getD] using ih

/-- C1: the pagination loop (page size 200, starting at page 1) requests pages
until one is empty or shorter than 200: every earlier page it saw was full, and
it returns the in-order concatenation of the pages it requested.  On the page
sequences [200, 200, 50] and [200, 200, 0] it issues exactly 3 requests and
returns the concatenation of the received activities. -/
theorem claim1_pagination :
    (∀ pages : List (List Activity),
      (get_all_activities pages).1 = (pages.take (get_all_activities pages).2).flatten ∧
      (∀ i : Nat, i + 1 < (get_all_activities pages).2 → 200 ≤ (pages.getD i []).length) ∧
      ((pages.getD ((get_all_activities pages).2 - 1) []) = [] ∨
        (pages.getD ((get_all_activities pages).2 - 1) []).length < 200)) ∧
    (∀ p1 p2 p3 : List Activity, p1.length = 200 → p2.length = 200 → p3.length = 50 →
      get_all_activities [p1, p2, p3] = (p1 ++ p2 ++ p3, 3)) ∧
    (∀ p1 p2 : List Activity, p1.length = 200 → p2.length = 200 →
      get_all_activities [p1, p2, []] = (p1 ++ p2, 3)) := by
  refine ⟨fun pages => ⟨gaa_join 200 pages, gaa_full_before_last 200 pages,
    gaa_last_short 200 pages⟩, ?_, ?_⟩
  · intro p1 p2 p3 h1 h2 h3
    simp [get_all_activities, get_all_activities_aux, h1, h2, h3, List.append_assoc]
  · intro p1 p2 h1 h2
    simp [get_all_activities, get_all_activities_aux, h1, h2]

/-- Witness for C1 at concrete page lists of lengths 200, 200, 50 and
200, 200, 0. -/
theorem claim1_pagination_witness :
    (List.replicate 200 blankActivity).length = 200 ∧
    (List.replicate 50 blankActivity).length = 50 ∧
    get_all_activities
        [List.replicate 200 blankActivity, List.replicate 200 blankActivity, List.replicate 50 blankActivity] =
      (List.replicate 200 blankActivity ++ List.replicate 200 blankActivity ++ List.replicate 50 blankActivity, 3) ∧
    get_all_activities [List.replicate 200 blankActivity, List.replicate 200 blankActivity, []] =
      (List.replicate 200 blankActivity ++ List.replicate 200 blankActivity, 3) :=
  ⟨by rw [List.length_replicate], by rw [List.length_replicate],
   claim1_pagination.2.1 (List.replicate 200 blankActivity) (List.replicate 200 blankActivity)
     (List.replicate 50 blankActivity) (by rw [List.length_replicate])
     (by rw [List.length_replicate]) (by rw [List.length_replicate]),
   claim1_pagination.2.2 (List.replicate 200 blankActivity) (List.replicate 200 blankActivity)
     (by rw [List.length_replicate]) (by rw [List.length_replicate])⟩

/-! Query-engine lemmas for C2, C4, C7, C10. -/

/-- The query engine is the five-step filter pipeline with truthiness guards. -/
lemma query_eq_pipeline (st : Option ActivitiesCache) (ty : Option String) (y : Option Int)
    (mn mx : Option ℚ) (lim : Option Int) :
    query_cached_activities st ty y mn mx lim = query_pipeline st ty y mn mx lim := by
  cases st <;> rfl

/-- A positive truncation limit bounds the result length. -/
lemma truncate_length_le (l : List Activity) (n : Int) (hn : 0 < n) :
    (truncateByLimit (some n) l).length ≤ n.toNat := by
  have hne : ¬ n = 0 := by omega
  have h0 : (0 : Int) ≤ n := le_of_lt hn
  simp only [truncateByLimit, if_neg hne, slice_to, if_pos h0]
  simp

/-- The query engine returns the empty list on a present-but-empty cache. -/
lemma query_empty_cache (u : String) (c : Int) (ty : Option String) (y : Option Int)
    (mn mx : Option ℚ) (lim : Option Int) :
    query_cached_activities (some ⟨u, c, []⟩) ty y mn mx lim = [] := by
  rw [query_eq_pipeline]
  cases ty <;> cases y <;> cases mn <;> cases mx <;> cases lim <;>
    simp [query_pipeline, filterByType, filterByYear, filterByMin, filterByMax,
      truncateByLimit, slice_to]

/-- C2 counterexample: with the empty string supplied as the type filter, the
engine skips the filter (Python truthiness) instead of exact-matching it, so
its result differs from the claim's filters-when-supplied reading. -/
theorem claim2_counterexample :
    query_cached_activities (some cacheOne) (some "") none none none none ≠
      query_supplied_spec (some cacheOne) (some "") none none none none := by
  have h1 : query_cached_activities (some cacheOne) (some "") none none none none =
      [runMay5] := by with_unfolding_all rfl
  have h2 : query_supplied_spec (some cacheOne) (some "") none none none none = [] := by
    with_unfolding_all rfl
  rw [h1, h2]
  simp

/-- C2 amended: the engine is the fixed-order pipeline — type exact-match, year
string against the start of start_date_local, min and max distance, then
truncation — where the type, year and limit steps are skipped not only when
absent but also when falsy (empty string or 0), while min/max apply whenever
supplied; with no filters it returns the full cached sequence unchanged, and
the min 5 km / max 10 km query on the 3/7/12 km cache returns exactly the 7 km
run. -/
theorem claim2_query_filter_order :
    (∀ (st : Option ActivitiesCache) (ty : Option String) (y : Option Int)
      (mn mx : Option ℚ) (lim : Option Int),
      query_cached_activities st ty y mn mx lim = query_pipeline st ty y mn mx lim) ∧
    (∀ cache : ActivitiesCache,
      query_cached_activities (some cache) none none none none none = cache.activities) ∧
    query_cached_activities (some cacheKm) none none (some 5) (some 10) none = [run7k] := by
  refine ⟨query_eq_pipeline, fun cache => rfl, ?_⟩
  with_unfolding_all rfl

/-- C4 counterexample: supplying limit=0 passes the caller-side clamp as
min(0, 25) = 0, the engine's falsy-limit branch then skips truncation, and the
26-run cache yields 26 returned activities, more than 25. -/
theorem claim4_counterexample :
    25 < (search_activities (some cache26) { limit := some 0 }).activitiesList.length := by
  have h : (search_activities (some cache26) { limit := some 0 }).activitiesList.length
      = 26 := by with_unfolding_all rfl
  omega

/-- C4 amended: whenever the supplied limit is positive or absent (default 10),
the caller-facing layer clamps it to at most 25 and the returned activities
list has at most 25 entries; a falsy limit of 0 escapes the cap by disabling
truncation. -/
theorem claim4_search_limit_cap :
    ∀ (st : Option ActivitiesCache) (args : SearchArgs),
      (args.limit = none ∨ ∃ l, args.limit = some l ∧ 0 < l) →
      (search_activities st args).activitiesList.length ≤ 25 := by
  intro st args h
  cases st with
  | none => simp [search_activities, get_activities_cache, SearchResult.activitiesList]
  | some cache =>
    have hpos : 0 < min (args.limit.getD 10) 25 := by
      rcases h with h | ⟨l, hl, hlpos⟩
      · simp [h]
      · simp only [hl, Option.getD_some]
        omega
    have hle : (min (args.limit.getD 10) 25).toNat ≤ 25 := by
      have := min_le_right (args.limit.getD 10) 25
      omega
    simp only [search_activities, get_activities_cache, SearchResult.activitiesList,
      List.length_map]
    rw [query_eq_pipeline]
    simp only [query_pipeline]
    exact le_trans (truncate_length_le _ _ hpos) hle

/-- Witness for C4 (amended) at the absent-limit default on an absent cache. -/
theorem claim4_search_limit_cap_witness :
    (({} : SearchArgs).limit = none ∨ ∃ l, ({} : SearchArgs).limit = some l ∧ 0 < l) ∧
    (search_activities none {}).activitiesList.length ≤ 25 :=
  ⟨Or.inl rfl, claim4_search_limit_cap none {} (Or.inl rfl)⟩

/-- C10: an explicit limit of 0 is falsy, so the truncation branch is skipped:
the query engine behaves exactly as with no limit, the search tool returns
every activity passing the other filters, and on the 26-run cache it returns
all 26 — more than the documented cap of 25. -/
theorem claim10_limit_zero_skips_truncation :
    (∀ (st : Option ActivitiesCache) (ty : Option String) (y : Option Int) (mn mx : Option ℚ),
      query_cached_activities st ty y mn mx (some 0) =
        query_cached_activities st ty y mn mx none) ∧
    (∀ (st : Option ActivitiesCache) (args : SearchArgs), args.limit = some 0 →
      (search_activities st args).activitiesList =
        (query_cached_activities st args.activity_type args.year args.min_distance_km
          args.max_distance_km none).map format_activity_summary_compact) ∧
    (search_activities (some cache26) { limit := some 0 }).activitiesList =
      cache26.activities.map format_activity_summary_compact ∧
    25 < cache26.activities.length := by
  have hzero : ∀ (st : Option ActivitiesCache) (ty : Option String) (y : Option Int)
      (mn mx : Option ℚ),
      query_cached_activities st ty y mn mx (some 0) =
        query_cached_activities st ty y mn mx none := by
    intro st ty y mn mx
    cases st <;> rfl
  refine ⟨hzero, ?_, ?_, ?_⟩
  · intro st args hlim
    cases st with
    | none => simp [search_activities, get_activities_cache, SearchResult.activitiesList,
        query_cached_activities]
    | some cache =>
      simp only [search_activities, get_activities_cache, SearchResult.activitiesList, hlim,
        Option.getD_some]
      rw [show min (0 : Int) 25 = 0 from rfl, hzero]
  · rw [show (search_activities (some cache26) { limit := some 0 }).activitiesList =
        (query_cached_activities (some cache26) none none none none none).map
          format_activity_summary_compact from rfl]
    rfl
  · simp [cache26]

/-- Witness for C10 at the concrete limit-0 argument record. -/
theorem claim10_limit_zero_skips_truncation_witness :
    (({ limit := some 0 } : SearchArgs).limit = some 0) ∧
    (search_activities none { limit := some 0 }).activitiesList =
      (query_cached_activities none none none none none none).map
        format_activity_summary_compact :=
  ⟨rfl, claim10_limit_zero_skips_truncation.2.1 none { limit := some 0 } rfl⟩

/-- C7: with an absent (falsy) cache, the query engine returns the empty list
and both tools return their structured "no data, run sync first" document; with
a present cache holding no activities, the query engine still returns the empty
list and both tools return their normal (non-error) document with empty
results — no path raises. -/
theorem claim7_cache_absent_or_empty :
    (∀ (ty : Option String) (y : Option Int) (mn mx : Option ℚ) (lim : Option Int),
      query_cached_activities none ty y mn mx lim = []) ∧
    (∀ args : SearchArgs, search_activities none args =
      .noData "No cached activities. Run sync_all_activities first." []) ∧
    (∀ y : Option Int, get_yearly_stats none y =
      .noData "No cached activities. Run sync_all_activities first.") ∧
    (∀ (u : String) (c : Int) (ty : Option String) (y : Option Int) (mn mx : Option ℚ)
      (lim : Option Int), query_cached_activities (some ⟨u, c, []⟩) ty y mn mx lim = []) ∧
    (∀ (u : String) (c : Int) (args : SearchArgs),
      search_activities (some ⟨u, c, []⟩) args = .ok u c 0 []) ∧
    (∀ (u : String) (c : Int) (y : Option Int),
      get_yearly_stats (some ⟨u, c, []⟩) y = .ok u []) := by
  refine ⟨fun _ _ _ _ _ => rfl, fun _ => rfl, fun _ => rfl, query_empty_cache, ?_, ?_⟩
  · intro u c args
    simp only [search_activities, get_activities_cache]
    rw [query_empty_cache]
    rfl
  · intro u c y
    cases y with
    | none => rfl
    | some ty =>
      by_cases h0 : ty = 0
      · simp [get_yearly_stats, get_activities_cache, groupRunsByYearAux, h0, sortByKey]
      · simp [get_yearly_stats, get_activities_cache, groupRunsByYearAux, h0,
          lookupAssoc, sortByKey, insertByKey]

/-! Grouping-lookup lemmas for C6. -/

/-- Updating one key leaves lookups at other keys unchanged. -/
lemma lookupAssoc_updateAssoc_ne {β : Type} (upd : β → β) (dflt : β)
    (m : List (String × β)) (key k : String) (h : k ≠ key) :
    lookupAssoc (updateAssoc upd dflt m key) k = lookupAssoc m k := by
  have hkey : ¬ key = k := fun hc => h hc.symm
  induction m with
  | nil => simp [updateAssoc, lookupAssoc, hkey]
  | cons p rest ih =>
    obtain ⟨pk, pv⟩ := p
    by_cases hp : pk = key
    · simp [updateAssoc, lookupAssoc, hp, hkey]
    · simp [updateAssoc, lookupAssoc, hp, ih]

/-- A key held by no run in the list is absent from the year grouping. -/
lemma lookup_groupRuns_none (k : String) :
    ∀ (runs : List Activity) (m : List (String × RawYearStats)),
      (∀ a ∈ runs, yearKey a ≠ k) → lookupAssoc m k = none →
      lookupAssoc (groupRunsByYearAux m runs) k = none := by
  intro runs
  induction runs with
  | nil => intro m _ hm; exact hm
  | cons a rest ih =>
    intro m hru hm
    simp only [groupRunsByYearAux]
    by_cases hy : yearKey a = ""
    · rw [if_pos hy]
      exact ih m (fun x hx => hru x (List.mem_cons_of_mem a hx)) hm
    · rw [if_neg hy]
      refine ih _ (fun x hx => hru x (List.mem_cons_of_mem a hx)) ?_
      rw [lookupAssoc_updateAssoc_ne]
      · exact hm
      · exact fun hk => hru a (List.mem_cons_self a rest) hk.symm

/-- C6 counterexample: the requested year 0 contains zero Run activities (the
only cached run's year key is "2024", not "0"), yet get_yearly_stats does not
return an empty yearly_stats mapping: year 0 is falsy in the source's
`if target_year:` guard, so the single-year restriction is skipped and the full
nonempty per-year mapping is returned. -/
theorem claim6_counterexample :
    yearKey runMay5 ≠ intStr 0 ∧
    get_yearly_stats (some cacheOne) (some 0) =
      .ok "2024-06-01T00:00:00" [("2024", mkYearSummary ⟨1, 5000, 0, 0⟩)] ∧
    get_yearly_stats (some cacheOne) (some 0) ≠ .ok "2024-06-01T00:00:00" [] := by
  refine ⟨by decide, by with_unfolding_all rfl, ?_⟩
  have h : get_yearly_stats (some cacheOne) (some 0) =
      .ok "2024-06-01T00:00:00" [("2024", mkYearSummary ⟨1, 5000, 0, 0⟩)] := by
    with_unfolding_all rfl
  rw [h]
  simp

/-- C6 amended: requesting a truthy (nonzero) year for which the cache holds no
Run activity makes get_yearly_stats return the normal document with an empty
yearly_stats mapping — not the error document and not a zero-valued bucket.
Requested year 0 is falsy and is treated as no request: the restriction is
skipped and every year bucket is returned. -/
theorem claim6_empty_year :
    ∀ (cache : ActivitiesCache) (y : Int), y ≠ 0 →
      (∀ a ∈ cache.activities, ¬(a.type = some "Run" ∧ yearKey a = intStr y)) →
      get_yearly_stats (some cache) (some y) = .ok cache.updated_at [] := by
  intro cache y hy h
  have hruns : ∀ a ∈ cache.activities.filter (fun a => decide (a.type = some "Run")),
      yearKey a ≠ intStr y := by
    intro a ha
    rw [List.mem_filter, decide_eq_true_eq] at ha
    exact fun hk => h a ha.1 ⟨ha.2, hk⟩
  have hlook : lookupAssoc
      (groupRunsByYearAux []
        (cache.activities.filter (fun a => decide (a.type = some "Run")))) (intStr y)
      = none :=
    lookup_groupRuns_none (intStr y) _ [] hruns rfl
  simp [get_yearly_stats, get_activities_cache, hy, hlook, sortByKey, insertByKey]

/-- Witness for C6 at a one-Ride cache and the requested year 2024. -/
theorem claim6_empty_year_witness :
    ((2024 : Int) ≠ 0) ∧
    get_yearly_stats (some cacheRideOnly) (some 2024) = .ok "2024-06-01T00:00:00" [] :=
  ⟨by decide, claim6_empty_year cacheRideOnly 2024 (by decide) (by decide)⟩

/-! Week-grouping lemmas for C5. -/

/-- Updating a key makes a lookup at that key succeed. -/
lemma lookupAssoc_updateAssoc_self {β : Type} (upd : β → β) (dflt : β)
    (m : List (String × β)) (key : String) :
    (lookupAssoc (updateAssoc upd dflt m key) key).isSome := by
  induction m with
  | nil => simp [updateAssoc, lookupAssoc]
  | cons p rest ih =>
    obtain ⟨pk, pv⟩ := p
    by_cases hp : pk = key
    · simp [updateAssoc, lookupAssoc, hp]
    · simp [updateAssoc, lookupAssoc, hp, ih]

/-- A key is present in the week grouping exactly when it is present in the
starting dict or is the week key of some processed run. -/
lemma lookup_weeklyGroupAux (k : String) :
    ∀ (l : List Activity) (m : List (String × WeekBucket)) (out : List (String × WeekBucket)),
      weeklyGroupAux m l = some out →
      ((lookupAssoc out k).isSome ↔
        (lookupAssoc m k).isSome ∨ ∃ a ∈ l, week_key a = some k) := by
  intro l
  induction l with
  | nil =>
    intro m out h
    simp only [weeklyGroupAux, Option.some_inj] at h
    subst h
    simp
  | cons a rest ih =>
    intro m out h
    simp only [weeklyGroupAux] at h
    cases hk : week_key a with
    | none => rw [hk] at h; exact absurd h (by simp)
    | some ka =>
      rw [hk] at h
      rw [ih _ out h]
      have hupd : (lookupAssoc
          (updateAssoc (fun b => accWeekBucket b a) (zeroWeekBucket ka) m ka) k).isSome ↔
          (k = ka ∨ (lookupAssoc m k).isSome) := by
        by_cases hka : k = ka
        · subst hka
          simp [lookupAssoc_updateAssoc_self]
        · rw [lookupAssoc_updateAssoc_ne _ _ _ _ _ hka]
          simp [hka]
      rw [hupd]
      simp only [hk, List.exists_mem_cons_iff, Option.some_inj]
      constructor
      · rintro (⟨hka | hm⟩ | hrest)
        · exact Or.inr (Or.inl hka.symm)
        · exact Or.inl hm
        · exact Or.inr (Or.inr hrest)
      · rintro (hm | hka | hrest)
        · exact Or.inl (Or.inr hm)
        · exact Or.inl (Or.inl hka.symm)
        · exact Or.inr hrest

/-- C5: runs on 2024-01-01 (a Monday) and 2024-01-07 (the following Sunday)
get the week-bucket key "2024-01-01" while a run on 2024-01-08 gets the
distinct key "2024-01-08"; a bucket key is the ISO date of the Monday of the
run's start week (the start day-count minus its weekday offset, weekday 0 =
Monday .. 6 = Sunday); and the grouping has a bucket for a key exactly when
some cached Run's week is that key — weeks with no runs produce no bucket. -/
theorem claim5_week_bucketing :
    week_key runJan1 = some "2024-01-01" ∧
    week_key runJan7 = some "2024-01-01" ∧
    week_key runJan8 = some "2024-01-08" ∧
    week_key runJan1 ≠ week_key runJan8 ∧
    (∀ z : Int, weekdayOfDays (mondayOfDays z) = 0 ∧ 0 ≤ weekdayOfDays z ∧
      weekdayOfDays z < 7 ∧ mondayOfDays z = z - weekdayOfDays z) ∧
    (∀ (l : List Activity) (out : List (String × WeekBucket)),
      training_load_weekly l = some out →
      ∀ k : String, (lookupAssoc out k).isSome ↔
        ∃ a ∈ l, a.type = some "Run" ∧ week_key a = some k) := by
  refine ⟨by decide, by decide, by decide, by decide, ?_, ?_⟩
  · intro z
    refine ⟨?_, ?_, ?_, rfl⟩
    · show (z - (z + 3) % 7 + 3) % 7 = 0
      omega
    · show 0 ≤ (z + 3) % 7
      omega
    · show (z + 3) % 7 < 7
      omega
  · intro l out h k
    rw [lookup_weeklyGroupAux k _ [] out h]
    simp only [show lookupAssoc ([] : List (String × WeekBucket)) k = none from rfl,
      Option.isSome_none, Bool.false_eq_true, false_or]
    constructor
    · rintro ⟨a, ha, hwk⟩
      rw [List.mem_filter, decide_eq_true_eq] at ha
      exact ⟨a, ha.1, ha.2, hwk⟩
    · rintro ⟨a, hal, hty, hwk⟩
      exact ⟨a, List.mem_filter.mpr ⟨hal, decide_eq_true hty⟩, hwk⟩

/-- The two buckets produced by the three January demo runs. -/
def demoWeeks : List (String × WeekBucket) :=
  [("2024-01-01", ⟨"2024-01-01", 2, 0, 0, 0⟩),
   ("2024-01-08", ⟨"2024-01-08", 1, 0, 0, 0⟩)]

/-- Witness for C5 at the concrete three-run list and its computed buckets. -/
theorem claim5_week_bucketing_witness :
    training_load_weekly [runJan1, runJan7, runJan8] = some demoWeeks ∧
    ((lookupAssoc demoWeeks "2024-01-01").isSome ↔
      ∃ a ∈ [runJan1, runJan7, runJan8], a.type = some "Run" ∧
        week_key a = some "2024-01-01") :=
  ⟨by with_unfolding_all rfl,
   claim5_week_bucketing.2.2.2.2.2 [runJan1, runJan7, runJan8] demoWeeks
     (by with_unfolding_all rfl) "2024-01-01"⟩

end RunCoach
